import Mathlib

/-!
Verification of the rule-validation circuit and the proof-backed payment
authorization pipeline of the `base-mini-hackason` repository.

The development shallowly embeds:
* the circom circuits (`circuits/payment_rules.circom`,
  `circuits/address_whitelist.circom`, `circuits/time_constraint.circom`)
  over the BN254 scalar field, with circomlib comparator semantics;
* the TypeScript prover (`src/zkp/prover.ts` class `ZKPProver`), including
  `addressToNumber` and the direct-evaluation fallback;
* the TypeScript verifier client (`src/blockchain/onchain-zkp-verifier.ts`)
  and the Solidity contract (`foundry/src/ZKPVerifier.sol`);
* the rule-commitment normalization (`src/blockchain/rule-commitment.ts`);
* the orchestration control flow of `PaymentSystem.processPayment`
  (`src/core/payment-system.ts`).
-/

namespace PaymentZKP

/-! ### BN254 scalar field and circomlib gadgets

Signals are field elements modelled as naturals below `P`, the BN254 scalar
field order used by circom 2 / snarkjs.  Field operations reduce modulo `P`.
-/

/-- Order of the BN254 scalar field over which the circom circuits operate. -/
def P : Nat := 21888242871839275222246405745257275088548364400416034343698204186575808495617

/-- Field addition. -/
def addF (x y : Nat) : Nat := (x + y) % P

/-- Field multiplication. -/
def mulF (x y : Nat) : Nat := x * y % P

/-- The value fed to `Num2Bits(n+1)` inside circomlib `LessThan(n)`:
`in[0] + 2^n - in[1]`, computed in the field. -/
def ltNum2BitsVal (n x y : Nat) : Nat := (x % P + 2 ^ n + (P - y % P)) % P

/-- Output of circomlib `LessThan(n)` as computed by the witness generator:
`1 - bits[n]` of the `Num2Bits(n+1)` decomposition. -/
def lessThanOut (n x y : Nat) : Nat := 1 - ltNum2BitsVal n x y / 2 ^ n % 2

/-- circomlib `LessEqThan(n)`: `LessThan(n)` applied to `(in[0], in[1] + 1)`. -/
def lessEqThanOut (n x y : Nat) : Nat := lessThanOut n x (addF y 1)

/-- circomlib `GreaterEqThan(n)`: `LessThan(n)` applied to `(in[1], in[0] + 1)`. -/
def greaterEqThanOut (n x y : Nat) : Nat := lessThanOut n y (addF x 1)

/-- circomlib `IsEqual` (via `IsZero` of the field difference): `1` iff the two
field elements coincide. -/
def isEqualOut (x y : Nat) : Nat := if x % P = y % P then 1 else 0

/-- circomlib `AND` gate: `out <== a*b`. -/
def andOut (a b : Nat) : Nat := mulF a b

/-- circomlib `OR` gate: `out <== a + b - a*b`, computed in the field. -/
def orOut (a b : Nat) : Nat := (a + b + (P - mulF a b)) % P

/-! ### The circuits -/

/-- `AddressWhitelistCheck` (`circuits/address_whitelist.circom`): OR of three
equality tests against the allowed addresses. -/
def addressWhitelistCheck (targetAddress allowedAddress1 allowedAddress2 allowedAddress3 : Nat) :
    Nat :=
  orOut (orOut (isEqualOut targetAddress allowedAddress1)
               (isEqualOut targetAddress allowedAddress2))
        (isEqualOut targetAddress allowedAddress3)

/-- `TimeConstraintCheck` (`circuits/time_constraint.circom`): conjunction of
`GreaterEqThan(8)(timestamp, minHour)` and `LessEqThan(8)(timestamp, maxHour)`. -/
def timeConstraintCheck (timestamp minHour maxHour : Nat) : Nat :=
  andOut (greaterEqThanOut 8 timestamp minHour) (lessEqThanOut 8 timestamp maxHour)

/-- Input signals of the `PaymentRules` template (`circuits/payment_rules.circom`). -/
structure PaymentRulesInput where
  paymentAddress : Nat
  paymentAmount : Nat
  paymentTimestamp : Nat
  allowedAddress1 : Nat
  allowedAddress2 : Nat
  allowedAddress3 : Nat
  maxAmount : Nat
  minHour : Nat
  maxHour : Nat

/-- Output signals of the `PaymentRules` template. -/
structure PaymentRulesOutput where
  isValid : Nat
  addressValid : Nat
  amountValid : Nat
  timeValid : Nat
deriving DecidableEq

/-- The `PaymentRules` circuit (`circuits/payment_rules.circom`): address
whitelist check, `LessEqThan(64)` amount check, time-window check, combined by
two `AND` gates; the three sub-results are surfaced as outputs. -/
def paymentRules (inp : PaymentRulesInput) : PaymentRulesOutput :=
  let addrV := addressWhitelistCheck inp.paymentAddress inp.allowedAddress1
      inp.allowedAddress2 inp.allowedAddress3
  let amtV := lessEqThanOut 64 inp.paymentAmount inp.maxAmount
  let timeV := timeConstraintCheck inp.paymentTimestamp inp.minHour inp.maxHour
  { isValid := andOut (andOut addrV amtV) timeV
    addressValid := addrV
    amountValid := amtV
    timeValid := timeV }

/-! ### Gadget correctness lemmas -/

theorem two_pow_lt_P {n : Nat} (h : n ≤ 253) : 2 ^ n ≤ 2 ^ 253 ∧ 2 ^ 253 < P := by
  constructor
  · exact Nat.pow_le_pow_right (by norm_num) h
  · decide

theorem lessThanOut_eq (n x y : Nat) (hx : x < 2 ^ n) (hy : y ≤ 2 ^ n)
    (hn : 2 ^ (n + 1) < P) : lessThanOut n x y = if x < y then 1 else 0 := by
  have h2n : 2 ^ n < 2 ^ (n + 1) := by
    exact Nat.pow_lt_pow_right (by norm_num) (Nat.lt_succ_self n)
  have hxP : x < P := lt_trans (lt_trans hx h2n) hn
  have hyP : y < P := lt_of_le_of_lt (le_trans hy (le_of_lt h2n)) hn
  have hv : ltNum2BitsVal n x y = x + 2 ^ n - y := by
    unfold ltNum2BitsVal
    rw [Nat.mod_eq_of_lt hxP, Nat.mod_eq_of_lt hyP]
    have heq : x + 2 ^ n + (P - y) = (x + 2 ^ n - y) + P := by omega
    rw [heq, Nat.add_mod_right, Nat.mod_eq_of_lt (by omega)]
  unfold lessThanOut
  rw [hv]
  by_cases hlt : x < y
  · have : x + 2 ^ n - y < 2 ^ n := by omega
    rw [Nat.div_eq_of_lt this]
    simp [hlt]
  · have h1 : 1 * 2 ^ n ≤ x + 2 ^ n - y := by omega
    have h2 : x + 2 ^ n - y < (1 + 1) * 2 ^ n := by
      have : (1 + 1) * 2 ^ n = 2 ^ (n + 1) := by rw [pow_succ]; ring
      omega
    rw [Nat.div_eq_of_lt_le h1 h2]
    simp [hlt]

theorem lessEqThanOut_eq (n x y : Nat) (hx : x < 2 ^ n) (hy : y < 2 ^ n)
    (hn : 2 ^ (n + 1) < P) : lessEqThanOut n x y = if x ≤ y then 1 else 0 := by
  have h2n : 2 ^ n < 2 ^ (n + 1) := Nat.pow_lt_pow_right (by norm_num) (Nat.lt_succ_self n)
  have hy1 : y + 1 < P := by omega
  unfold lessEqThanOut
  have haddF : addF y 1 = y + 1 := by
    unfold addF; exact Nat.mod_eq_of_lt hy1
  rw [haddF, lessThanOut_eq n x (y + 1) hx (by omega) hn]
  by_cases h : x ≤ y <;> simp [h] <;> omega

theorem greaterEqThanOut_eq (n x y : Nat) (hx : x < 2 ^ n) (hy : y < 2 ^ n)
    (hn : 2 ^ (n + 1) < P) : greaterEqThanOut n x y = if y ≤ x then 1 else 0 := by
  have h2n : 2 ^ n < 2 ^ (n + 1) := Nat.pow_lt_pow_right (by norm_num) (Nat.lt_succ_self n)
  have hx1 : x + 1 < P := by omega
  unfold greaterEqThanOut
  have haddF : addF x 1 = x + 1 := by
    unfold addF; exact Nat.mod_eq_of_lt hx1
  rw [haddF, lessThanOut_eq n y (x + 1) hy (by omega) hn]
  by_cases h : y ≤ x <;> simp [h] <;> omega

theorem isEqualOut_eq (x y : Nat) (hx : x < P) (hy : y < P) :
    isEqualOut x y = if x = y then 1 else 0 := by
  unfold isEqualOut
  rw [Nat.mod_eq_of_lt hx, Nat.mod_eq_of_lt hy]

theorem andOut_bool {a b : Nat} (ha : a = 0 ∨ a = 1) (hb : b = 0 ∨ b = 1) :
    andOut a b = if a = 1 ∧ b = 1 then 1 else 0 := by
  rcases ha with ha | ha <;> rcases hb with hb | hb <;> subst ha <;> subst hb <;> decide

theorem orOut_bool {a b : Nat} (ha : a = 0 ∨ a = 1) (hb : b = 0 ∨ b = 1) :
    orOut a b = if a = 1 ∨ b = 1 then 1 else 0 := by
  rcases ha with ha | ha <;> rcases hb with hb | hb <;> subst ha <;> subst hb <;> decide

theorem addressWhitelistCheck_eq (t a1 a2 a3 : Nat) (ht : t < P) (h1 : a1 < P)
    (h2 : a2 < P) (h3 : a3 < P) :
    addressWhitelistCheck t a1 a2 a3 = if t = a1 ∨ t = a2 ∨ t = a3 then 1 else 0 := by
  unfold addressWhitelistCheck
  rw [isEqualOut_eq t a1 ht h1, isEqualOut_eq t a2 ht h2, isEqualOut_eq t a3 ht h3]
  split_ifs <;> tauto

theorem timeConstraintCheck_eq (ts mn mx : Nat) (hts : ts < 2 ^ 8) (hmn : mn < 2 ^ 8)
    (hmx : mx < 2 ^ 8) :
    timeConstraintCheck ts mn mx = if mn ≤ ts ∧ ts ≤ mx then 1 else 0 := by
  unfold timeConstraintCheck
  rw [greaterEqThanOut_eq 8 ts mn hts hmn (by decide),
    lessEqThanOut_eq 8 ts mx hts hmx (by decide)]
  split_ifs <;> tauto

/-- Sample circuit assignment: whitelisted address, amount 75 under cap 100,
hour 14 inside the window [9, 18]. -/
def sampleCircuitInput : PaymentRulesInput :=
  { paymentAddress := 5, paymentAmount := 75, paymentTimestamp := 14
    allowedAddress1 := 5, allowedAddress2 := 6, allowedAddress3 := 7
    maxAmount := 100, minHour := 9, maxHour := 18 }

/-- C1: for every circuit input within the declared comparator widths, the
four outputs of `PaymentRules` equal the reference booleans: `addressValid`
is the whitelist membership bit, `amountValid` the `amount ≤ maxAmount` bit,
`timeValid` the `minHour ≤ timestamp ≤ maxHour` bit, and `isValid` is the
conjunction of the three. -/
theorem circuit_outputs_correct (inp : PaymentRulesInput)
    (hamt : inp.paymentAmount < 2 ^ 64) (hmax : inp.maxAmount < 2 ^ 64)
    (hts : inp.paymentTimestamp < 2 ^ 8) (hmin : inp.minHour < 2 ^ 8)
    (hmaxh : inp.maxHour < 2 ^ 8)
    (haddr : inp.paymentAddress < P) (ha1 : inp.allowedAddress1 < P)
    (ha2 : inp.allowedAddress2 < P) (ha3 : inp.allowedAddress3 < P) :
    ((paymentRules inp).addressValid = 1 ↔
      (inp.paymentAddress = inp.allowedAddress1 ∨
        inp.paymentAddress = inp.allowedAddress2 ∨
        inp.paymentAddress = inp.allowedAddress3)) ∧
    ((paymentRules inp).amountValid = 1 ↔ inp.paymentAmount ≤ inp.maxAmount) ∧
    ((paymentRules inp).timeValid = 1 ↔
      (inp.minHour ≤ inp.paymentTimestamp ∧ inp.paymentTimestamp ≤ inp.maxHour)) ∧
    ((paymentRules inp).isValid = 1 ↔
      ((paymentRules inp).addressValid = 1 ∧ (paymentRules inp).amountValid = 1 ∧
        (paymentRules inp).timeValid = 1)) := by
  have haV : (paymentRules inp).addressValid =
      if inp.paymentAddress = inp.allowedAddress1 ∨
        inp.paymentAddress = inp.allowedAddress2 ∨
        inp.paymentAddress = inp.allowedAddress3 then 1 else 0 :=
    addressWhitelistCheck_eq _ _ _ _ haddr ha1 ha2 ha3
  have hmV : (paymentRules inp).amountValid =
      if inp.paymentAmount ≤ inp.maxAmount then 1 else 0 :=
    lessEqThanOut_eq 64 _ _ hamt hmax (by decide)
  have htV : (paymentRules inp).timeValid =
      if inp.minHour ≤ inp.paymentTimestamp ∧ inp.paymentTimestamp ≤ inp.maxHour
      then 1 else 0 :=
    timeConstraintCheck_eq _ _ _ hts hmin hmaxh
  have hiV : (paymentRules inp).isValid =
      andOut (andOut (paymentRules inp).addressValid (paymentRules inp).amountValid)
        (paymentRules inp).timeValid := rfl
  refine ⟨?_, ?_, ?_, ?_⟩
  · rw [haV]; split_ifs with h <;> simp [h]
  · rw [hmV]; split_ifs with h <;> simp [h]
  · rw [htV]; split_ifs with h <;> simp [h]
  · rw [hiV, haV, hmV, htV]
    split_ifs <;> decide

/-- Witness for C1 at `sampleCircuitInput`. -/
theorem circuit_outputs_correct_witness :
    (paymentRules sampleCircuitInput).amountValid = 1 ↔ (75 : Nat) ≤ 100 :=
  (circuit_outputs_correct sampleCircuitInput (by decide) (by decide) (by decide)
    (by decide) (by decide) (by decide) (by decide) (by decide) (by decide)).2.1

/-! ### The `IntegerDivision(n)` constraint system

`quotient` and `remainder` are assigned by unconstrained `<--` hints; the
constraints are `dividend === quotient * divisor + remainder` (a field
equation), `LessThan(n)(remainder, divisor).out === 1` and
`GreaterEqThan(n)(remainder, 0).out === 1`.  The two comparator constraints
are modelled literally: the `Num2Bits(n+1)` decomposition inside `LessThan`
must exist (its input, reduced in the field, fits in `n+1` bits) and the
extracted bit `n` must be `0`. -/

/-- `LessThan(n)` with its output constrained to `1`. -/
def ltForcedOne (n x y : Nat) : Prop :=
  ltNum2BitsVal n x y < 2 ^ (n + 1) ∧ ltNum2BitsVal n x y / 2 ^ n % 2 = 0

instance (n x y : Nat) : Decidable (ltForcedOne n x y) := by
  unfold ltForcedOne; infer_instance

/-- `GreaterEqThan(n)` with its output constrained to `1`: internally
`LessThan(n)` on `(in[1], in[0] + 1)`. -/
def geqForcedOne (n x y : Nat) : Prop := ltForcedOne n y (addF x 1)

instance (n x y : Nat) : Decidable (geqForcedOne n x y) := by
  unfold geqForcedOne; infer_instance

/-- The full constraint system of `IntegerDivision(n)`
(`circuits/time_constraint.circom`). -/
def integerDivisionConstraints (n dividend divisor quotient remainder : Nat) : Prop :=
  dividend % P = (quotient * divisor + remainder) % P ∧
  ltForcedOne n remainder divisor ∧
  geqForcedOne n remainder 0

instance (n dividend divisor quotient remainder : Nat) :
    Decidable (integerDivisionConstraints n dividend divisor quotient remainder) := by
  unfold integerDivisionConstraints; infer_instance

/-- The witness the circom generator computes via the `<--` hints:
`dividend \ divisor` and `dividend % divisor` on canonical representatives. -/
def integerDivisionWitness (dividend divisor : Nat) : Nat × Nat :=
  (dividend / divisor, dividend % divisor)

theorem ltNum2BitsVal_eq (n x y : Nat) (hx : x < 2 ^ n) (hy : y ≤ 2 ^ n)
    (hn : 2 ^ (n + 1) < P) : ltNum2BitsVal n x y = x + 2 ^ n - y := by
  have h2n : 2 ^ n < 2 ^ (n + 1) := Nat.pow_lt_pow_right (by norm_num) (Nat.lt_succ_self n)
  have hxP : x < P := by omega
  have hyP : y < P := by omega
  unfold ltNum2BitsVal
  rw [Nat.mod_eq_of_lt hxP, Nat.mod_eq_of_lt hyP]
  have heq : x + 2 ^ n + (P - y) = (x + 2 ^ n - y) + P := by omega
  rw [heq, Nat.add_mod_right, Nat.mod_eq_of_lt (by omega)]

theorem ltForcedOne_iff (n x y : Nat) (hx : x < 2 ^ n) (hy : y ≤ 2 ^ n)
    (hn : 2 ^ (n + 1) < P) : ltForcedOne n x y ↔ x < y := by
  have h2n : 2 ^ n < 2 ^ (n + 1) := Nat.pow_lt_pow_right (by norm_num) (Nat.lt_succ_self n)
  unfold ltForcedOne
  rw [ltNum2BitsVal_eq n x y hx hy hn]
  constructor
  · rintro ⟨hfit, hbit⟩
    by_contra hge
    have h1 : 1 * 2 ^ n ≤ x + 2 ^ n - y := by omega
    have h2 : x + 2 ^ n - y < (1 + 1) * 2 ^ n := by
      have : (1 + 1) * 2 ^ n = 2 ^ (n + 1) := by rw [pow_succ]; ring
      omega
    rw [Nat.div_eq_of_lt_le h1 h2] at hbit
    omega
  · intro hlt
    have hv : x + 2 ^ n - y < 2 ^ n := by omega
    rw [Nat.div_eq_of_lt hv]
    omega

/-- Soundness of the `GreaterEqThan(n)(remainder, 0) === 1` constraint over
the field: it forces the remainder signal below `2 ^ n`. -/
theorem geqForcedOne_zero_sound (n r : Nat) (hr : r < P) (hn : 2 ^ (n + 1) < P)
    (h : geqForcedOne n r 0) : r < 2 ^ n := by
  have h2n : 2 ^ n < 2 ^ (n + 1) := Nat.pow_lt_pow_right (by norm_num) (Nat.lt_succ_self n)
  by_contra hge
  push_neg at hge
  unfold geqForcedOne ltForcedOne at h
  obtain ⟨hfit, hbit⟩ := h
  by_cases hRP : r + 1 = P
  · have haddF : addF r 1 = 0 := by unfold addF; rw [hRP]; exact Nat.mod_self P
    rw [haddF] at hfit hbit
    have hv : ltNum2BitsVal n 0 0 = 2 ^ n := by
      unfold ltNum2BitsVal
      simp only [Nat.zero_mod, Nat.sub_zero]
      rw [Nat.zero_add, Nat.add_mod_right, Nat.mod_eq_of_lt (by omega)]
    rw [hv] at hbit
    rw [Nat.div_self (by positivity)] at hbit
    omega
  · have haddF : addF r 1 = r + 1 := by unfold addF; exact Nat.mod_eq_of_lt (by omega)
    rw [haddF] at hfit hbit
    have hr1 : (r + 1) % P = r + 1 := Nat.mod_eq_of_lt (by omega)
    have hv : ltNum2BitsVal n 0 (r + 1) = 2 ^ n + (P - (r + 1)) := by
      unfold ltNum2BitsVal
      rw [Nat.zero_mod, Nat.zero_add, hr1,
        Nat.mod_eq_of_lt (show 2 ^ n + (P - (r + 1)) < P by omega)]
    rw [hv] at hfit hbit
    have h1 : 1 * 2 ^ n ≤ 2 ^ n + (P - (r + 1)) := by omega
    have h2 : 2 ^ n + (P - (r + 1)) < (1 + 1) * 2 ^ n := by
      have : (1 + 1) * 2 ^ n = 2 ^ (n + 1) := by rw [pow_succ]; ring
      omega
    rw [Nat.div_eq_of_lt_le h1 h2] at hbit
    omega

/-- Completeness of the `GreaterEqThan(n)(remainder, 0) === 1` constraint for
in-range remainders. -/
theorem geqForcedOne_zero_complete (n r : Nat) (hr : r < 2 ^ n)
    (hn : 2 ^ (n + 1) < P) : geqForcedOne n r 0 := by
  have h2n : 2 ^ n < 2 ^ (n + 1) := Nat.pow_lt_pow_right (by norm_num) (Nat.lt_succ_self n)
  unfold geqForcedOne ltForcedOne
  have haddF : addF r 1 = r + 1 := by unfold addF; exact Nat.mod_eq_of_lt (by omega)
  rw [haddF]
  have hr1 : (r + 1) % P = r + 1 := Nat.mod_eq_of_lt (by omega)
  have hv : ltNum2BitsVal n 0 (r + 1) = 2 ^ n - (r + 1) := by
    unfold ltNum2BitsVal
    rw [Nat.zero_mod, Nat.zero_add, hr1]
    have heq : 2 ^ n + (P - (r + 1)) = (2 ^ n - (r + 1)) + P := by omega
    rw [heq, Nat.add_mod_right, Nat.mod_eq_of_lt (by omega)]
  rw [hv]
  constructor
  · omega
  · rw [Nat.div_eq_of_lt (by omega)]

/-- C9 (amended): within the declared width, the witness computed from the
`<--` hints satisfies both integer equations and the constraint system; and
every satisfying assignment has `remainder < divisor` (with the remainder
range-checked to `n` bits by the `GreaterEqThan` constraint) and satisfies
the division equation modulo the field order `P` — but only modulo `P`: the
quotient itself is not range-constrained. -/
theorem integerDivision_correct (n dividend divisor : Nat)
    (hdvd : dividend < 2 ^ n) (hdiv0 : 0 < divisor) (hdiv : divisor < 2 ^ n)
    (hn : 2 ^ (n + 1) < P) :
    (dividend = (integerDivisionWitness dividend divisor).1 * divisor +
        (integerDivisionWitness dividend divisor).2 ∧
      (integerDivisionWitness dividend divisor).2 < divisor ∧
      integerDivisionConstraints n dividend divisor
        (integerDivisionWitness dividend divisor).1
        (integerDivisionWitness dividend divisor).2) ∧
    (∀ quotient remainder : Nat, remainder < P →
      integerDivisionConstraints n dividend divisor quotient remainder →
      remainder < divisor ∧
        dividend % P = (quotient * divisor + remainder) % P) := by
  have hmod : dividend % divisor < divisor := Nat.mod_lt _ hdiv0
  have hdm : dividend / divisor * divisor + dividend % divisor = dividend := by
    rw [Nat.mul_comm]; exact Nat.div_add_mod dividend divisor
  constructor
  · refine ⟨?_, ?_, ?_, ?_, ?_⟩
    · exact hdm.symm
    · exact hmod
    · show dividend % P = (dividend / divisor * divisor + dividend % divisor) % P
      rw [hdm]
    · exact (ltForcedOne_iff n (dividend % divisor) divisor (by omega) (by omega) hn).mpr hmod
    · exact geqForcedOne_zero_complete n (dividend % divisor) (by omega) hn
  · intro quotient remainder hrP hc
    obtain ⟨heq, hlt, hgeq⟩ := hc
    have hr2n : remainder < 2 ^ n := geqForcedOne_zero_sound n remainder hrP hn hgeq
    have hrd : remainder < divisor := (ltForcedOne_iff n _ _ hr2n (by omega) hn).mp hlt
    exact ⟨hrd, heq⟩

/-- Witness for C9 at `n = 8`, dividend `35`, divisor `10`. -/
theorem integerDivision_correct_witness :
    (35 : Nat) = (integerDivisionWitness 35 10).1 * 10 +
        (integerDivisionWitness 35 10).2 ∧
      (integerDivisionWitness 35 10).2 < 10 := by
  have h := integerDivision_correct 8 35 10 (by decide) (by decide) (by decide) (by decide)
  exact ⟨h.1.1, h.1.2.1⟩

/-- C9 counterexample: for dividend `35`, divisor `10`, the externally
supplied pair with the field-wrapped quotient `(35 - 3) * 10⁻¹ mod P` and
remainder `3` satisfies every constraint of `IntegerDivision(8)`, yet
violates the integer equation `dividend = quotient * divisor + remainder`.
The constraint system therefore accepts a pair the claim says it must
reject. -/
theorem integerDivision_forged_pair_accepted :
    integerDivisionConstraints 8 35 10
      8755297148735710088898562298102910035419345760166413737479281674630323398250 3 ∧
    35 ≠ 8755297148735710088898562298102910035419345760166413737479281674630323398250
        * 10 + 3 := by
  constructor
  · exact ⟨by decide, by decide, by decide⟩
  · decide

/-! ### The TypeScript prover (`src/zkp/prover.ts`, class `ZKPProver`) -/

/-- JavaScript signed 32-bit coercion, as performed by `<<` and `&`. -/
def toInt32 (x : Int) : Int := (x + 2 ^ 31) % 2 ^ 32 - 2 ^ 31

/-- One step of the rolling hash in `addressToNumber`:
`hash = ((hash << 5) - hash) + char; hash = hash & hash;`. -/
def jsHashStep (h : Int) (c : Nat) : Int := toInt32 (toInt32 (h * 2 ^ 5) - h + c)

/-- The rolling hash folded over the code units of a string. -/
def jsHash (s : String) : Int := s.data.foldl (fun h ch => jsHashStep h ch.toNat) 0

/-- `addr.toLowerCase()` (character-wise lowercasing; the addresses involved
are ASCII). -/
def jsToLower (s : String) : String := ⟨s.data.map Char.toLower⟩

/-- `addressToNumber` from `ZKPProver.generatePaymentProof`: addresses
shorter than 42 characters map to `0`; otherwise the rolling hash of the
lowercased address, made nonnegative with `Math.abs`. -/
def addressToNumber (addr : String) : Nat :=
  if addr.length < 42 then 0 else (jsHash (jsToLower addr)).natAbs

/-- The fields of an AI payment plan consumed by the prover. -/
structure PaymentPlan where
  toAddress : String
  amount : Nat
  timestamp : Nat
deriving DecidableEq

/-- The user rule set (`UserRules` in `src/types/index.ts`):
whitelisted addresses, amount cap, allowed hour window `[start, end]`. -/
structure UserRules where
  allowedAddresses : List String
  maxAmount : Nat
  allowedHours : Nat × Nat
deriving DecidableEq

/-- `ZKPProver.validateRulesManually`: the three boolean checks computed in
the clear, with the hour sampled from the clock (passed here explicitly). -/
def validateRulesManually (plan : PaymentPlan) (rules : UserRules)
    (currentHour : Nat) : Bool :=
  rules.allowedAddresses.contains plan.toAddress &&
  decide (plan.amount ≤ rules.maxAmount) &&
  (decide (rules.allowedHours.1 ≤ currentHour) &&
    decide (currentHour ≤ rules.allowedHours.2))

/-- A snarkjs Groth16 proof object (`pi_a`, `pi_b`, `pi_c` coordinates,
already parsed to numbers). -/
structure SnarkjsProof where
  pi_a : List Nat
  pi_b : List (List Nat)
  pi_c : List Nat
deriving DecidableEq

/-- The `proof` field of an artifact: a genuine snarkjs proof, the
direct-evaluation sentinel `{ mock: true, validated: … }`, or a nullish
value (used to model malformed artifacts handed to the verifier). -/
inductive ProofValue where
  | snark (p : SnarkjsProof)
  | mockSentinel (validated : Bool)
  | nullish
deriving DecidableEq

/-- The artifact returned by `ZKPProver.generatePaymentProof`. -/
structure ZKPResult where
  proof : ProofValue
  publicSignals : List String
  isValid : Bool
deriving DecidableEq

/-- The circuit input assembled by `generatePaymentProof`. -/
structure ZKPInput where
  paymentAddress : Nat
  paymentAmount : Nat
  paymentTimestamp : Nat
  allowedAddress1 : Nat
  allowedAddress2 : Nat
  allowedAddress3 : Nat
  maxAmount : Nat
  minHour : Nat
  maxHour : Nat
deriving DecidableEq

/-- Input assembly in `generatePaymentProof`: the private inputs come from
the plan and the clock hour, the public inputs from the rules, each address
slot mapped through `addressToNumber` (missing slots default to `'0x0'`). -/
def buildZKPInput (plan : PaymentPlan) (rules : UserRules) (currentHour : Nat) :
    ZKPInput :=
  { paymentAddress := addressToNumber plan.toAddress
    paymentAmount := plan.amount
    paymentTimestamp := currentHour
    allowedAddress1 := addressToNumber (rules.allowedAddresses.getD 0 "0x0")
    allowedAddress2 := addressToNumber (rules.allowedAddresses.getD 1 "0x0")
    allowedAddress3 := addressToNumber (rules.allowedAddresses.getD 2 "0x0")
    maxAmount := rules.maxAmount
    minHour := rules.allowedHours.1
    maxHour := rules.allowedHours.2 }

/-- `ZKPProver.generatePaymentProof`, with the snarkjs proving call
abstracted as a deterministic oracle from the circuit input to
`(proof, publicSignals)`, and the ambient state (circuit files present,
current clock hour) passed explicitly.  When the circuit files are missing
it falls back to `validateRulesManually` and packages the mock sentinel with
a single-entry signal list; otherwise it proves and reports
`publicSignals[0] === '1'` as `isValid`. -/
def generatePaymentProof (fullProve : ZKPInput → SnarkjsProof × List String)
    (circuitFilesExist : Bool) (plan : PaymentPlan) (rules : UserRules)
    (currentHour : Nat) : ZKPResult :=
  if !circuitFilesExist then
    let ok := validateRulesManually plan rules currentHour
    { proof := .mockSentinel ok
      publicSignals := [if ok then "1" else "0"]
      isValid := ok }
  else
    let input := buildZKPInput plan rules currentHour
    let r := fullProve input
    { proof := .snark r.1
      publicSignals := r.2
      isValid := r.2.getD 0 "0" == "1" }

/-- The dummy payment plan from `ZKPProver.generateDummyProof`. -/
def demoPlan : PaymentPlan :=
  { toAddress := "0x1234567890123456789012345678901234567890"
    amount := 50
    timestamp := 1700000000 }

/-- The dummy rule set from `ZKPProver.generateDummyProof`. -/
def demoRules : UserRules :=
  { allowedAddresses :=
      ["0x1234567890123456789012345678901234567890",
       "0x2345678901234567890123456789012345678901",
       "0x3456789012345678901234567890123456789012"]
    maxAmount := 100
    allowedHours := (9, 18) }

/-- A fixed stand-in for the snarkjs proving oracle, used by witnesses. -/
def demoOracle : ZKPInput → SnarkjsProof × List String :=
  fun _ => ({ pi_a := [1, 2], pi_b := [[1, 2], [3, 4]], pi_c := [5, 6] },
    ["1", "1", "1", "1"])

/-- C6 (amended): when the circuit artifacts are missing, the prover falls
back to direct evaluation for every plan and rule set: the proof field is
the mock "unproven" sentinel carrying the evaluation outcome, and the public
signals are the SINGLE-entry list holding only the overall bit — `"1"`
exactly when the destination is whitelisted, the amount is within the cap,
and the clock hour lies in the allowed window.  The three individual bits
are not included in the artifact. -/
theorem fallback_direct_evaluation (fullProve : ZKPInput → SnarkjsProof × List String)
    (plan : PaymentPlan) (rules : UserRules) (hour : Nat) :
    (generatePaymentProof fullProve false plan rules hour).proof =
      .mockSentinel (validateRulesManually plan rules hour) ∧
    (generatePaymentProof fullProve false plan rules hour).publicSignals =
      [if rules.allowedAddresses.contains plan.toAddress = true ∧
          plan.amount ≤ rules.maxAmount ∧
          rules.allowedHours.1 ≤ hour ∧ hour ≤ rules.allowedHours.2
        then "1" else "0"] := by
  refine ⟨rfl, ?_⟩
  show [if validateRulesManually plan rules hour then "1" else "0"] = _
  unfold validateRulesManually
  by_cases hc : rules.allowedAddresses.contains plan.toAddress = true <;>
    by_cases ham : plan.amount ≤ rules.maxAmount <;>
    by_cases h1 : rules.allowedHours.1 ≤ hour <;>
    by_cases h2 : hour ≤ rules.allowedHours.2 <;>
    simp [hc, ham, h1, h2]

/-- C6 counterexample: at the dummy plan and rules with clock hour 14 (an
all-pass input), the fallback artifact's public outputs are the single-entry
list `["1"]`, not the ordered 4-tuple of bits the claim requires. -/
theorem fallback_signals_single_entry :
    (generatePaymentProof demoOracle false demoPlan demoRules 14).publicSignals = ["1"] ∧
    (generatePaymentProof demoOracle false demoPlan demoRules 14).publicSignals ≠
      ["1", "1", "1", "1"] := by
  constructor <;> decide

/-- Two 42-character destination addresses that differ only in the case of
one hex digit. -/
def collidingAddressUpper : String := "0xAbcdef1234567890123456789012345678901234"

/-- The all-lowercase variant of `collidingAddressUpper`. -/
def collidingAddressLower : String := "0xabcdef1234567890123456789012345678901234"

set_option maxRecDepth 4000 in
/-- C7: `addressToNumber` is not injective on distinct 42-character address
strings: the two distinct addresses above (differing in letter case) are
mapped to the same field element, because the function lowercases its input
before hashing — and the 32-bit rolling hash cannot be injective on
40-hex-digit strings in any case. -/
theorem addressToNumber_collision :
    collidingAddressUpper ≠ collidingAddressLower ∧
    addressToNumber collidingAddressUpper = addressToNumber collidingAddressLower := by
  constructor <;> decide

/-- C10: the prover never reads the caller-supplied `timestamp` field: two
plans agreeing on destination and amount produce identical artifacts at the
same clock hour, in both the proving path and the manual-validation
fallback. -/
theorem prover_ignores_caller_timestamp
    (fullProve : ZKPInput → SnarkjsProof × List String) (circuitFilesExist : Bool)
    (p1 p2 : PaymentPlan) (rules : UserRules) (hour : Nat)
    (ha : p1.toAddress = p2.toAddress) (hm : p1.amount = p2.amount) :
    generatePaymentProof fullProve circuitFilesExist p1 rules hour =
      generatePaymentProof fullProve circuitFilesExist p2 rules hour := by
  unfold generatePaymentProof validateRulesManually buildZKPInput
  rw [ha, hm]

/-- Witness for C10: the demo plan with two different timestamps. -/
theorem prover_ignores_caller_timestamp_witness :
    generatePaymentProof demoOracle true
        { toAddress := "0x1234567890123456789012345678901234567890"
          amount := 50, timestamp := 1700000000 } demoRules 14 =
      generatePaymentProof demoOracle true
        { toAddress := "0x1234567890123456789012345678901234567890"
          amount := 50, timestamp := 42 } demoRules 14 :=
  prover_ignores_caller_timestamp demoOracle true _ _ demoRules 14 rfl rfl

/-! ### The verifier client (`src/blockchain/onchain-zkp-verifier.ts`) and
the Solidity contract (`foundry/src/ZKPVerifier.sol`) -/

/-- Whether a `proof` value passes `!proof || typeof proof !== 'object'`:
both a snarkjs proof and the mock sentinel are objects; only a nullish
value fails. -/
def isObjectValue : ProofValue → Bool
  | .nullish => false
  | _ => true

/-- `OnChainZKPVerifier.verifyProofLocally`: the proof must be a non-null
object, the signal vector must have exactly four entries, and every entry
must equal `'1'`. -/
def verifyProofLocally (proof : ProofValue) (publicSignals : List String) : Bool :=
  isObjectValue proof && decide (publicSignals.length = 4) &&
    publicSignals.all (fun s => s == "1")

/-- The proof tuple assembled by `OnChainZKPVerifier.convertToOnChainProof`
via `safeBigInt` over optional coordinate accesses: missing coordinates — in
particular every coordinate of the mock sentinel, which carries no
`pi_a`/`pi_b`/`pi_c` fields — become `0`. -/
structure ConvertedProof where
  a0 : Nat
  a1 : Nat
  b00 : Nat
  b01 : Nat
  b10 : Nat
  b11 : Nat
  c0 : Nat
  c1 : Nat
deriving DecidableEq

/-- `OnChainZKPVerifier.convertToOnChainProof`. -/
def convertToOnChainProof : ProofValue → ConvertedProof
  | .snark p =>
    { a0 := p.pi_a.getD 0 0, a1 := p.pi_a.getD 1 0
      b00 := (p.pi_b.getD 0 []).getD 0 0, b01 := (p.pi_b.getD 0 []).getD 1 0
      b10 := (p.pi_b.getD 1 []).getD 0 0, b11 := (p.pi_b.getD 1 []).getD 1 0
      c0 := p.pi_c.getD 0 0, c1 := p.pi_c.getD 1 0 }
  | _ => { a0 := 0, a1 := 0, b00 := 0, b01 := 0, b10 := 0, b11 := 0, c0 := 0, c1 := 0 }

/-- The `Proof` struct of `ZKPVerifier.sol`: `a`, `b`, `c`, each declared as
`uint256[2]`. -/
structure SolidityProof where
  a0 : Nat
  a1 : Nat
  b0 : Nat
  b1 : Nat
  c0 : Nat
  c1 : Nat
deriving DecidableEq

/-- `ZKPVerifier._verifyGroth16Proof` (the contract's simplified check):
reject any all-zero point and any signal vector not of length 4. -/
def verifyGroth16Proof (proof : SolidityProof) (publicSignals : List Nat) : Bool :=
  if proof.a0 = 0 ∧ proof.a1 = 0 then false
  else if proof.b0 = 0 ∧ proof.b1 = 0 then false
  else if proof.c0 = 0 ∧ proof.c1 = 0 then false
  else if publicSignals.length = 4 then true
  else false

/-- `ZKPVerifier._verifyPublicSignals`: the vector must have length 4 and
all four bits must equal 1; the rule hash, payment address and amount are
received but never inspected. -/
def verifyPublicSignals (publicSignals : List Nat)
    (ruleHash paymentAddress amount : Nat) : Bool :=
  if publicSignals.length = 4 then
    decide (publicSignals.getD 0 0 = 1) && decide (publicSignals.getD 1 0 = 1) &&
      decide (publicSignals.getD 2 0 = 1) && decide (publicSignals.getD 3 0 = 1)
  else false

/-- `ZKPVerifier.verifyAndAuthorizePayment`: reverts (`none`) on a zero
proof id or a replayed proof id; otherwise stores and returns the
conjunction of the Groth16 structure check and the signal check. -/
def verifyAndAuthorizePayment (proofIdIsZero alreadyVerified : Bool)
    (zkProof : SolidityProof) (publicSignals : List Nat)
    (ruleHash paymentAddress amount : Nat) : Option Bool :=
  if proofIdIsZero then none
  else if alreadyVerified then none
  else some (verifyGroth16Proof zkProof publicSignals &&
    verifyPublicSignals publicSignals ruleHash paymentAddress amount)

/-- C2: in both verification modes, `authorized = true` forces the public
signal vector to be exactly the four all-one bits; any vector with a zero
bit or of a different length yields `authorized = false` in the local
structural check and a non-`true` result in the on-chain contract check. -/
theorem authorized_requires_all_pass :
    (∀ (proof : ProofValue) (signals : List String),
      verifyProofLocally proof signals = true → signals = ["1", "1", "1", "1"]) ∧
    (∀ (proofIdIsZero alreadyVerified : Bool) (zkProof : SolidityProof)
      (signals : List Nat) (ruleHash paymentAddress amount : Nat),
      verifyAndAuthorizePayment proofIdIsZero alreadyVerified zkProof signals
          ruleHash paymentAddress amount = some true →
      signals = [1, 1, 1, 1]) := by
  constructor
  · intro proof signals h
    simp only [verifyProofLocally, Bool.and_eq_true, decide_eq_true_eq,
      List.all_eq_true, beq_iff_eq] at h
    obtain ⟨⟨-, hlen⟩, hall⟩ := h
    match signals, hlen with
    | [a, b, c, d], _ =>
      rw [hall a (by simp), hall b (by simp), hall c (by simp), hall d (by simp)]
  · intro proofIdIsZero alreadyVerified zkProof signals ruleHash paymentAddress amount h
    cases proofIdIsZero <;> cases alreadyVerified <;>
      simp only [verifyAndAuthorizePayment, if_true, if_false, Bool.false_eq_true,
        reduceCtorEq, Option.some.injEq, Bool.and_eq_true] at h
    obtain ⟨-, hsig⟩ := h
    unfold verifyPublicSignals at hsig
    by_cases hlen : signals.length = 4
    · rw [if_pos hlen] at hsig
      simp only [Bool.and_eq_true, decide_eq_true_eq] at hsig
      match signals, hlen with
      | [a, b, c, d], _ =>
        obtain ⟨⟨⟨h0, h1⟩, h2⟩, h3⟩ := hsig
        simp only [List.getD] at h0 h1 h2 h3
        simp_all
    · rw [if_neg hlen] at hsig
      exact absurd hsig (by simp)

/-- Witness for C2: a structurally well-formed artifact with the all-pass
vector is accepted locally, and the theorem then pins the vector. -/
theorem authorized_requires_all_pass_witness :
    verifyProofLocally (.mockSentinel true) ["1", "1", "1", "1"] = true ∧
      (["1", "1", "1", "1"] : List String) = ["1", "1", "1", "1"] :=
  ⟨by decide, authorized_requires_all_pass.1 (.mockSentinel true) _ (by decide)⟩

/-- C4 counterexample: an artifact whose proof field is the direct-evaluation
mock sentinel passes local structural verification when paired with a
four-entry all-`'1'` signal vector: the shape check tests only that the
proof is a non-null object, and the sentinel is one. -/
theorem mock_sentinel_passes_local_verification :
    verifyProofLocally (.mockSentinel true) ["1", "1", "1", "1"] = true := by decide

/-- C4 (amended): local structural verification does not distinguish genuine
from fallback proof shapes — it accepts any non-null object, the mock
sentinel included, exactly when the signal vector is four entries all `'1'`.
An artifact actually produced by the direct-evaluation fallback is still
rejected, but only because its signal vector has a single entry, not
because of its proof shape. -/
theorem local_verification_shape_blind :
    (∀ (v : Bool) (signals : List String),
      verifyProofLocally (.mockSentinel v) signals = true ↔
        signals = ["1", "1", "1", "1"]) ∧
    (∀ (fullProve : ZKPInput → SnarkjsProof × List String) (plan : PaymentPlan)
      (rules : UserRules) (hour : Nat),
      verifyProofLocally (generatePaymentProof fullProve false plan rules hour).proof
        (generatePaymentProof fullProve false plan rules hour).publicSignals = false) := by
  constructor
  · intro v signals
    constructor
    · exact fun h => authorized_requires_all_pass.1 _ _ h
    · rintro rfl; cases v <;> decide
  · intro fullProve plan rules hour
    show verifyProofLocally (.mockSentinel (validateRulesManually plan rules hour))
      [if validateRulesManually plan rules hour then "1" else "0"] = false
    cases validateRulesManually plan rules hour <;> decide

/-- C5: an artifact produced by the direct-evaluation fallback can never be
authorized on-chain: its converted proof has zero `a`-coordinates (the
sentinel has no `pi_a`), so `_verifyGroth16Proof` rejects it — whatever the
placement of the remaining coordinates in calldata and for every rule
commitment, destination, amount and signal vector; the contract call either
reverts or returns `false`. -/
theorem fallback_artifact_never_onchain_authorized
    (v proofIdIsZero alreadyVerified : Bool) (b0 b1 c0 c1 : Nat)
    (signals : List Nat) (ruleHash paymentAddress amount : Nat) :
    verifyAndAuthorizePayment proofIdIsZero alreadyVerified
      { a0 := (convertToOnChainProof (.mockSentinel v)).a0
        a1 := (convertToOnChainProof (.mockSentinel v)).a1
        b0 := b0, b1 := b1, c0 := c0, c1 := c1 }
      signals ruleHash paymentAddress amount ≠ some true := by
  cases proofIdIsZero <;> cases alreadyVerified <;>
    simp [verifyAndAuthorizePayment, convertToOnChainProof, verifyGroth16Proof]

/-! ### Rule commitment (`src/blockchain/rule-commitment.ts`,
`RuleCommitmentManager.hashRules`) -/

/-- JavaScript's default `Array.prototype.sort()` on an array of strings:
lexicographic comparison of code units, modelled by merge sort under the
string order. -/
def jsSortStrings (l : List String) : List String := l.mergeSort

/-- The double-quoted, comma-separated rendering `JSON.stringify` produces
for a string array's elements. -/
def quoteJoin : List String → String
  | [] => ""
  | [a] => "\"" ++ a ++ "\""
  | a :: rest => "\"" ++ a ++ "\"," ++ quoteJoin rest

/-- The canonical serialization built inside `hashRules`:
`JSON.stringify` of the normalized object with keys `allowedAddresses`
(sorted), `maxAmount`, `allowedHours` and the fixed `version: "1.0"` tag,
rendered in insertion order. -/
def rulesString (rules : UserRules) : String :=
  "\x7b\"allowedAddresses\":[" ++ quoteJoin (jsSortStrings rules.allowedAddresses) ++
    "],\"maxAmount\":" ++ toString rules.maxAmount ++
    ",\"allowedHours\":[" ++ toString rules.allowedHours.1 ++ "," ++
    toString rules.allowedHours.2 ++ "],\"version\":\"1.0\"\x7d"

/-- `RuleCommitmentManager.hashRules`: the keccak256 digest (an opaque viem
primitive, abstracted as a function parameter) of the canonical
serialization. -/
def hashRules (keccak256 : String → String) (rules : UserRules) : String :=
  keccak256 (rulesString rules)

theorem jsSortStrings_perm_eq {l1 l2 : List String} (h : l1.Perm l2) :
    jsSortStrings l1 = jsSortStrings l2 := by
  unfold jsSortStrings
  exact List.eq_of_perm_of_sorted
    ((List.mergeSort_perm l1 _).trans (h.trans (List.mergeSort_perm l2 _).symm))
    (List.sorted_mergeSort' _) (List.sorted_mergeSort' _)

/-- C8: for any digest primitive, computing the rule commitment is
deterministic — repeated calls on the same rule set agree — and
order-independent: two rule sets carrying the same destinations in a
different presentation order, the same cap and the same hour window commit
to the same value. -/
theorem hashRules_deterministic_order_independent
    (keccak256 : String → String) (r1 r2 : UserRules)
    (hperm : r1.allowedAddresses.Perm r2.allowedAddresses)
    (hmax : r1.maxAmount = r2.maxAmount)
    (hhours : r1.allowedHours = r2.allowedHours) :
    hashRules keccak256 r1 = hashRules keccak256 r1 ∧
    hashRules keccak256 r1 = hashRules keccak256 r2 := by
  refine ⟨rfl, ?_⟩
  unfold hashRules rulesString
  rw [hmax, hhours, jsSortStrings_perm_eq hperm]

/-- The demo rule set with its destination list rotated. -/
def demoRulesShuffled : UserRules :=
  { allowedAddresses :=
      ["0x3456789012345678901234567890123456789012",
       "0x1234567890123456789012345678901234567890",
       "0x2345678901234567890123456789012345678901"]
    maxAmount := 100
    allowedHours := (9, 18) }

/-- Witness for C8 at the demo rule set and its rotation. -/
theorem hashRules_order_independent_witness :
    hashRules (fun s => s) demoRules = hashRules (fun s => s) demoRulesShuffled :=
  (hashRules_deterministic_order_independent (fun s => s) demoRules demoRulesShuffled
    (by decide) rfl rfl).2

/-! ### The orchestration pipeline (`src/core/payment-system.ts`,
`PaymentSystem.processPayment`) -/

/-- The collaborator stages invoked by `processPayment`, in invocation
order. -/
inductive Stage where
  | commit
  | parse
  | plan
  | zkp
  | verify
  | execute
deriving DecidableEq

/-- The value `OnChainZKPVerifier.verifyProofOnChain` hands back to the
pipeline: a bare boolean on the contract-less local path, or an object
carrying `verified` and `onChain`. -/
inductive VerifyOutcome where
  | boolResult (b : Bool)
  | objResult (verified : Bool) (onChain : Bool)
deriving DecidableEq

/-- The pipeline's reading of that value:
`typeof r === 'boolean' ? r : r.verified`. -/
def isVerifiedOf : VerifyOutcome → Bool
  | .boolResult b => b
  | .objResult v _ => v

/-- The collaborator responses consumed by one `processPayment` run. -/
structure PipelineEnv where
  zkpResult : ZKPResult
  verifyOutcome : VerifyOutcome
  paymentSuccess : Bool

/-- Terminal statuses of `processPayment` (the error-catch path aside). -/
inductive PipelineStatus where
  | completed
  | payment_failed
  | rule_violation
  | verification_failed
deriving DecidableEq

/-- A pipeline run: its terminal result and the ordered list of collaborator
stages it invoked. -/
structure PipelineRun where
  status : PipelineStatus
  success : Bool
  calls : List Stage

/-- Control flow of `PaymentSystem.processPayment`: commit, parse, plan and
prove always run in order; a zero overall bit terminates with the
rule-violation result before the verifier is consulted; a failed
verification terminates before the executor is invoked; otherwise the
executor runs and determines the final status. -/
def processPayment (env : PipelineEnv) : PipelineRun :=
  if !env.zkpResult.isValid then
    { status := .rule_violation, success := false
      calls := [Stage.commit, Stage.parse, Stage.plan, Stage.zkp] }
  else if !(isVerifiedOf env.verifyOutcome) then
    { status := .verification_failed, success := false
      calls := [Stage.commit, Stage.parse, Stage.plan, Stage.zkp, Stage.verify] }
  else
    { status := if env.paymentSuccess then .completed else .payment_failed
      success := env.paymentSuccess
      calls := [Stage.commit, Stage.parse, Stage.plan, Stage.zkp, Stage.verify,
        Stage.execute] }

/-- C3: whenever the generated proof's overall bit is 0, the pipeline
terminates with the rule-violation result without invoking the verifier or
the payment executor; and the executor is invoked only in runs whose
verification outcome reported `authorized = true`. -/
theorem pipeline_gates_execution (env : PipelineEnv) :
    (env.zkpResult.isValid = false →
      (processPayment env).status = .rule_violation ∧
      Stage.verify ∉ (processPayment env).calls ∧
      Stage.execute ∉ (processPayment env).calls) ∧
    (Stage.execute ∈ (processPayment env).calls →
      isVerifiedOf env.verifyOutcome = true) := by
  obtain ⟨⟨proof, signals, valid⟩, outcome, pay⟩ := env
  cases valid <;> cases hout : isVerifiedOf outcome <;>
    simp [processPayment, hout]

/-- A run whose proof reports a rule violation. -/
def violationEnv : PipelineEnv :=
  { zkpResult := { proof := .mockSentinel false, publicSignals := ["0"], isValid := false }
    verifyOutcome := .objResult false false
    paymentSuccess := false }

/-- Witness for C3 at a run with a violated rule set. -/
theorem pipeline_gates_execution_witness :
    (processPayment violationEnv).status = .rule_violation ∧
      Stage.verify ∉ (processPayment violationEnv).calls ∧
      Stage.execute ∉ (processPayment violationEnv).calls :=
  (pipeline_gates_execution violationEnv).1 rfl

end PaymentZKP
